import Mathlib

/-!
Verification development for the shopping-thumbnail pipeline
(`backend/shopping_pipeline.py`).

The Python source is shallowly embedded: pure image/string computations are
translated into executable Lean functions; external effects (HTTP fetches,
browser automation, ML inference, the generative-AI service, base64 and JSON
codecs, and PIL's resampling kernel) are supplied as oracle fields of
environment structures, so that every claim about the orchestration and the
deterministic math is provable while the effectful boundary stays explicit.

Machine integers do not overflow in the modelled code paths (all pixel and
size arithmetic is small and non-negative), so `Nat` is used throughout;
Python `int()` truncation of non-negative quotients is `Nat` division /
`Int.floor` on `ℚ`.
-/

namespace ShoppingPipeline

/-- A pixel: red, green, blue, alpha, each conceptually in 0..255. -/
abbrev RGBA := Nat × Nat × Nat × Nat

/-- An in-memory raster image as PIL exposes it: a size and a pixel access
function (values outside the size are irrelevant junk). -/
structure Img where
  width : Nat
  height : Nat
  px : Nat → Nat → RGBA

/-- Python `bytes` values flowing through the pipeline: either opaque bytes
that came from outside (indexed abstractly), or the PNG serialization of an
image produced inside the pipeline (`save(..., format="PNG")`). -/
inductive PBytes where
  | ext : Nat → PBytes
  | png : Img → PBytes

/-! ### String primitives

Python string operations are embedded over `List Char` (the kernel cannot
evaluate the byte-position-based core `String` functions, and the claims need
concrete evaluation). -/

/-- True when `pat` is a prefix of `s`. -/
def isPrefixL : List Char → List Char → Bool
  | [], _ => true
  | _ :: _, [] => false
  | a :: p, b :: s => a == b && isPrefixL p s

/-- Python `pat in hay`: the pattern occurs at some position. -/
def hasSubL (pat : List Char) : List Char → Bool
  | [] => isPrefixL pat []
  | c :: t => isPrefixL pat (c :: t) || hasSubL pat t

/-- Python `pat in hay` on `String`. -/
def hasSub (hay pat : String) : Bool :=
  hasSubL pat.data hay.data

/-- The whitespace set of Python's default `str.strip()`. -/
def pyWs (c : Char) : Bool :=
  c == ' ' || c == '\t' || c == '\n' || c == '\r' || c == '\x0b' || c == '\x0c'

/-- Strip characters satisfying `p` from both ends (Python `str.strip`). -/
def pyStrip (p : Char → Bool) (s : List Char) : List Char :=
  ((s.dropWhile p).reverse.dropWhile p).reverse

/-- Python `str.strip()` on `String`. -/
def pyTrim (s : String) : String :=
  String.mk (pyStrip pyWs s.data)

/-- Python `str.lower()` for the ASCII range (the URLs and filter patterns the
extractor lowercases are ASCII). -/
def lowerChar (c : Char) : Char :=
  if 'A' ≤ c && c ≤ 'Z' then Char.ofNat (c.toNat + 32) else c

/-- Python `str.lower()` on `String` (ASCII case fold). -/
def pyLower (s : String) : String :=
  String.mk (s.data.map lowerChar)

/-- Python `u.replace("\\/", "/")` (`shopping_pipeline.py:122,142`): left-to-right
non-overlapping replacement of the fixed two-character pattern. -/
def unescapeSlashes : List Char → List Char
  | [] => []
  | '\\' :: '/' :: t => '/' :: unescapeSlashes t
  | c :: t => c :: unescapeSlashes t

/-- Python `s.startswith(pre)` on `String`. -/
def pyStartsWith (s pre : String) : Bool :=
  isPrefixL pre.data s.data

/-- Python `a or b` on an optional string: `None` and `""` are falsy. -/
def pyOrStr (a : Option String) (b : String) : String :=
  match a with
  | some s => if s = "" then b else s
  | none => b

/-- Embeds `_refine_alpha` from `composite_thumbnail`
(`shopping_pipeline.py:806-811`): the three-point alpha curve.
`int((v - 95) * 255 / (250 - 95))` truncates a non-negative quotient whose
exact value is never within float error of an integer boundary, so `Nat`
division is exact. -/
def refineAlpha (v : Nat) : Nat :=
  if v < 95 then 0
  else if 250 ≤ v then 255
  else (v - 95) * 255 / 155

/-! ## Extractor (`_is_naver_error_page`, `_extract_image_from_html`) -/

/-- Embeds `_is_naver_error_page` (`shopping_pipeline.py:67-78`): empty or short HTML
(`not html or len(html) < 500`, the first disjunct subsumed by the second) or
any of the five blocked-page marker substrings. -/
def isNaverErrorPage (html : String) : Bool :=
  html.length < 500 ||
    ["현재 서비스 접속이 불가합니다", "module_error", "동시에 접속하는 이용자 수가 많거나",
     "시스템오류", "접속이 불가합니다"].any (fun m => hasSub html m)

/-- The case-insensitive exclusion regex `logo|icon|banner|ad|spinner|1x1|pixel`
applied in both JSON-field loops (`shopping_pipeline.py:124,143`). -/
def excludedFull (u : String) : Bool :=
  let l := pyLower u
  hasSub l "logo" || hasSub l "icon" || hasSub l "banner" || hasSub l "ad" ||
    hasSub l "spinner" || hasSub l "1x1" || hasSub l "pixel"

/-- The shorter case-insensitive exclusion regex `logo|icon|banner|ad` of the
broad pstatic rule (`shopping_pipeline.py:130`). -/
def excludedBroad (u : String) : Bool :=
  let l := pyLower u
  hasSub l "logo" || hasSub l "icon" || hasSub l "banner" || hasSub l "ad"

/-- Acceptance applied to a raw capture of the first (Naver CDN oriented)
JSON/script pattern loop (`shopping_pipeline.py:120-125`): unescape `\/`,
strip, require an `http` prefix and a Naver CDN substring (case-sensitive
`in`), and reject decorative-asset URLs. Returns the accepted URL. -/
def acceptJsonNaver (v : String) : Option String :=
  let u := pyTrim (String.mk (unescapeSlashes v.data))
  if pyStartsWith u "http" &&
      (hasSub u "shop-phinf" || hasSub u "phinf" || hasSub u "pstatic") &&
      !excludedFull u then
    some u
  else none

/-- Acceptance applied to a raw capture of the second (generic product image)
JSON/`data-src` pattern loop (`shopping_pipeline.py:140-144`). -/
def acceptJsonGeneric (v : String) : Option String :=
  let u := pyTrim (String.mk (unescapeSlashes v.data))
  if pyStartsWith u "http" && !excludedFull u then some u
  else none

/-- First accepted candidate over a loop of per-pattern regex search results
(`for pat in [...]: m = re.search(pat, html); if m: ...` — a rejected match
does not retry later matches of the same pattern, it moves to the next one). -/
def firstAccept (f : String → Option String) : List (Option String) → Option String
  | [] => none
  | none :: t => firstAccept f t
  | some v :: t =>
    match f v with
    | some u => some u
    | none => firstAccept f t

/-- The regex-search results over one HTML document that
`_extract_image_from_html` consumes, supplied as an oracle (the regex engine
is external to this embedding; every acceptance check applied to a capture is
embedded concretely). Each field is the first match of that pattern, if any. -/
structure HtmlOracle where
  /-- `og:image` content capture (either attribute order), line 87-89. -/
  ogImage : Option String
  /-- `og:title` content capture (either attribute order), line 92-94. -/
  ogTitle : Option String
  /-- `img[alt=대표이미지]` src capture (either attribute order), line 101-103. -/
  repImage : Option String
  /-- raw shop-phinf / phinf.pstatic URL in an HTML attribute, line 107. -/
  phinfAttr : Option String
  /-- per-pattern captures of the first JSON/script loop, line 111-119. -/
  jsonNaver : List (Option String)
  /-- broad pstatic.net image URL capture, line 127. -/
  pstaticBroad : Option String
  /-- per-pattern captures of the second (generic) loop, line 133-138. -/
  jsonGeneric : List (Option String)

/-- Embeds `_extract_image_from_html` (`shopping_pipeline.py:81-145`): the blocked
page check, then the ordered rule chain, each rule falling through on a
failed acceptance check; every non-blocked return path carries the stripped
`og:title` capture. -/
def extractImageFromHtml (html : String) (o : HtmlOracle) :
    Option String × Option String :=
  if isNaverErrorPage html then (none, none)
  else
    let title := o.ogTitle.map pyTrim
    -- og:image: `img = m.group(1).strip(); if img and img.startswith("http")`
    match o.ogImage.bind (fun i =>
        let i := pyTrim i
        if pyStartsWith i "http" then some i else none) with
    | some img => (some img, title)
    | none =>
    -- img[alt=대표이미지], guarded by the marker being present in the HTML
    match (if hasSub html "대표이미지" then o.repImage else none).bind (fun v =>
        if pyStartsWith v "http" then some (pyTrim v) else none) with
    | some img => (some img, title)
    | none =>
    -- raw shop-phinf URL in an HTML attribute
    match o.phinfAttr.bind (fun v =>
        if pyStartsWith v "http" then some (pyTrim v) else none) with
    | some img => (some img, title)
    | none =>
    -- first JSON/script loop (Naver CDN restricted, full exclusion filter)
    match firstAccept acceptJsonNaver o.jsonNaver with
    | some img => (some img, title)
    | none =>
    -- broad pstatic.net rule, shorter exclusion filter
    match o.pstaticBroad.bind (fun v =>
        if pyStartsWith v "http" then
          let u := pyTrim v
          if !excludedBroad u then some u else none
        else none) with
    | some img => (some img, title)
    | none =>
    -- second, generic JSON/`data-src` loop
    match firstAccept acceptJsonGeneric o.jsonGeneric with
    | some img => (some img, title)
    | none => (none, title)

/-! ## Concept analysis (`analyze_product_gemini`), JSON-span selection

`analyze_product_gemini` (`shopping_pipeline.py:628-667`) extracts a JSON
object from the model's response text with
`re.search(r"\{[^{}]*(?:\{[^{}]*\}[^{}]*)*\}", text, re.DOTALL) or
re.search(r"\{[^{}]*\}", text)`. The two patterns are embedded as a
deterministic matcher: the three character classes (`{`, `}`, other) are
disjoint, so greedy matching needs no backtracking. -/

/-- Split off the maximal brace-free prefix (`[^{}]*`). -/
def nbSplit : List Char → List Char × List Char
  | [] => ([], [])
  | c :: t =>
    if c = '\x7b' ∨ c = '\x7d' then ([], c :: t)
    else
      let r := nbSplit t
      (c :: r.1, r.2)

/-- Matcher for `(?:\{[^{}]*\}[^{}]*)*\}` — the rest of the first pattern
after the opening brace and the leading `[^{}]*` have been consumed. Fuel is
the remaining input length (each iteration consumes at least two characters),
kept explicit so the definition evaluates in the kernel. -/
def matchLoopF : Nat → List Char → Option (List Char)
  | _, [] => none
  | fuel, c :: r =>
    if c = '\x7d' then some ['\x7d']
    else if c = '\x7b' then
      match fuel with
      | 0 => none
      | f + 1 =>
        let p1 := nbSplit r
        match p1.2 with
        | [] => none
        | c2 :: r2 =>
          if c2 = '\x7d' then
            let p2 := nbSplit r2
            match matchLoopF f p2.2 with
            | some m => some ('\x7b' :: p1.1 ++ '\x7d' :: p2.1 ++ m)
            | none => none
          else none
    else none

/-- Match of `\{[^{}]*(?:\{[^{}]*\}[^{}]*)*\}` anchored at the start. -/
def matchNestedAt (cs : List Char) : Option (List Char) :=
  match cs with
  | [] => none
  | c :: r =>
    if c = '\x7b' then
      (matchLoopF r.length (nbSplit r).2).map (fun m => '\x7b' :: (nbSplit r).1 ++ m)
    else none

/-- Python `re.search` of the first pattern: leftmost match. -/
def searchNested : List Char → Option (List Char)
  | [] => none
  | c :: t =>
    match matchNestedAt (c :: t) with
    | some m => some m
    | none => searchNested t

/-- Match of the flat fallback pattern `\{[^{}]*\}` anchored at the start. -/
def matchFlatAt (cs : List Char) : Option (List Char) :=
  match cs with
  | [] => none
  | c :: r =>
    if c = '\x7b' then
      match (nbSplit r).2 with
      | [] => none
      | c2 :: _ => if c2 = '\x7d' then some ('\x7b' :: (nbSplit r).1 ++ ['\x7d']) else none
    else none

/-- Python `re.search` of the flat fallback pattern: leftmost match. -/
def searchFlat : List Char → Option (List Char)
  | [] => none
  | c :: t =>
    match matchFlatAt (c :: t) with
    | some m => some m
    | none => searchFlat t

/-- The span selection of `analyze_product_gemini` line 662:
`re.search(nested) or re.search(flat)`. -/
def selectJsonSpan (cs : List Char) : Option (List Char) :=
  match searchNested cs with
  | some m => some m
  | none => searchFlat cs

/-- Modelled from the spec: "the first balanced-brace JSON object (nested
braces must be matched, not just first/last brace)" — scan to the first `{`
and take the span up to its matching `}`, counting nesting depth. Used only
to compare the source's regex selection against the claim's wording. -/
def specTakeBalanced (acc : List Char) (d : Nat) : List Char → Option (List Char)
  | [] => none
  | c :: t =>
    if c = '\x7b' then specTakeBalanced (c :: acc) (d + 1) t
    else if c = '\x7d' then
      if d = 1 then some (c :: acc).reverse
      else if d = 0 then none
      else specTakeBalanced (c :: acc) (d - 1) t
    else specTakeBalanced (c :: acc) d t

/-- Modelled from the spec (continued): drop text before the first `{`. -/
def specSkipToBrace : List Char → List Char
  | [] => []
  | c :: t => if c = '\x7b' then c :: t else specSkipToBrace t

/-- Modelled from the spec: the first balanced-brace object of the text. -/
def specFirstBalancedBrace (cs : List Char) : Option (List Char) :=
  specTakeBalanced [] 0 (specSkipToBrace cs)

/-- Brace-depth scan: `some d` is the final depth when no unmatched `}` is
met starting from depth `d₀`; `depthScan m 0 = some 0` states `m` is
brace-balanced. -/
def depthScan : List Char → Nat → Option Nat
  | [], d => some d
  | c :: t, d =>
    if c = '\x7b' then depthScan t (d + 1)
    else if c = '\x7d' then
      if d = 0 then none else depthScan t (d - 1)
    else depthScan t d

/-- The `ProductConcept` record (`category`, `core_colors`, `background_concept`); a
missing `core_colors` key (`concept.get("core_colors")`) is `none`. -/
structure Concept where
  category : String
  coreColors : Option (List String)
  backgroundConcept : String
deriving DecidableEq

/-- Oracle boundary of `analyze_product_gemini`: the concatenated text parts
of the AI REST response (`none`: no or empty response), and `json.loads`
(`none`: the parse raised, caught by the enclosing `try`). -/
structure AnalyzeEnv where
  geminiText : Option String
  jsonLoads : String → Option Concept

/-- Embeds `analyze_product_gemini` (`shopping_pipeline.py:628-667`), response
traversal and prompt construction oracled away: strip the response text,
select a JSON span with the two-regex chain, parse it; any failure is `none`. -/
def analyzeProductGemini (env : AnalyzeEnv) : Option Concept :=
  match env.geminiText with
  | none => none
  | some t =>
    let text := pyTrim t
    match selectJsonSpan text.data with
    | some m => env.jsonLoads (String.mk m)
    | none => none

/-! ## Image model (PIL boundary)

Decoding of external bytes and LANCZOS resampling content are oracles; sizes,
channel plumbing, alpha refinement and gradient synthesis are concrete. -/

/-- An RGB triple. -/
abbrev RGB := Nat × Nat × Nat

/-- Oracle boundary of PIL: decoding of externally produced bytes, and the
pixel content of LANCZOS resampling (`Image.resize`); the target size of a
resize is exact and modelled concretely. -/
structure ImgEnv where
  decodeExt : Nat → Option Img
  resample : Img → Nat → Nat → Nat → Nat → RGBA

/-- PIL `Image.open(io.BytesIO(b))`: bytes the pipeline itself PNG-encoded decode
back to their image; external bytes decode through the oracle (`none` models
a decode exception, caught by the enclosing `try`). -/
def decodeImg (env : ImgEnv) : PBytes → Option Img
  | .png i => some i
  | .ext n => env.decodeExt n

/-- PIL `img.resize((w, h), LANCZOS)`: exact target size, oracled pixel content. -/
def resize (env : ImgEnv) (i : Img) (w h : Nat) : Img :=
  ⟨w, h, fun x y => env.resample i w h x y⟩

/-- PIL `img.convert("RGB")`: drop the alpha channel (the result is fully
opaque). -/
def convertRGB (i : Img) : Img :=
  ⟨i.width, i.height, fun x y =>
    let p := i.px x y
    (p.1, p.2.1, p.2.2.1, 255)⟩

/-- PIL `a.point(_refine_alpha, mode="L")` then `Image.merge` (lines 804-814):
apply the alpha curve to the alpha band, keep the color bands. -/
def refineImgAlpha (i : Img) : Img :=
  ⟨i.width, i.height, fun x y =>
    let p := i.px x y
    (p.1, p.2.1, p.2.2.1, refineAlpha p.2.2.2)⟩

/-- One pixel of `bg.paste(product, (x, y), product)`: all four bands of the
background blended against the product by the product's alpha (models PIL's
rounded `a*(255-m)+b*m over 255` blend). -/
def blendPx (bgp fgp : RGBA) : RGBA :=
  let m := fgp.2.2.2
  ((bgp.1 * (255 - m) + fgp.1 * m + 127) / 255,
   (bgp.2.1 * (255 - m) + fgp.2.1 * m + 127) / 255,
   (bgp.2.2.1 * (255 - m) + fgp.2.2.1 * m + 127) / 255,
   (bgp.2.2.2 * (255 - m) + fgp.2.2.2 * m + 127) / 255)

/-- PIL `bg.paste(fg, (x0, y0), fg)`: blend inside the pasted box, background
unchanged elsewhere; the canvas size is unchanged. -/
def pasteMasked (bg fg : Img) (x0 y0 : Nat) : Img :=
  ⟨bg.width, bg.height, fun x y =>
    if x0 ≤ x ∧ x < x0 + fg.width ∧ y0 ≤ y ∧ y < y0 + fg.height then
      blendPx (bg.px x y) (fg.px (x - x0) (y - y0))
    else bg.px x y⟩

/-- Minimum of two non-negative fractions `a/b`, `c/d` (positive
denominators) by cross-multiplication; models one `min` step of the source's
float expression `min(1000 / h, 1000 / w, 1.0)` exactly. -/
def minFrac (p q : Nat × Nat) : Nat × Nat :=
  if p.1 * q.2 ≤ q.1 * p.2 then p else q

/-- Embeds `composite_thumbnail` (`shopping_pipeline.py:786-822`): decode and resize
the background to 1000x1000, decode the product, scale it to fit — the scale
factor `min(1000 / h, 1000 / w, 1.0)` is kept as an exact fraction and
Python `int()` truncation of the non-negative product is `Nat` division —
refine its alpha, paste centered, flatten to RGB, save as PNG. A zero
product dimension raises (`ZeroDivisionError` / PIL rejecting a zero resize
target), caught by the enclosing `try` as `None`. The `core_colors`
parameter is accepted and unused, exactly as in the source. -/
def compositeThumbnail (env : ImgEnv) (hasPil : Bool)
    (productPng backgroundPng : PBytes) (coreColors : Option (List String)) :
    Option PBytes :=
  if !hasPil then none
  else
    match decodeImg env backgroundPng with
    | none => none
    | some bg0 =>
      let bg := resize env bg0 1000 1000
      match decodeImg env productPng with
      | none => none
      | some p0 =>
        if p0.width = 0 ∨ p0.height = 0 then none
        else
          let ratio := minFrac (1000, p0.height) (minFrac (1000, p0.width) (1, 1))
          let nw := p0.width * ratio.1 / ratio.2
          let nh := p0.height * ratio.1 / ratio.2
          if nw = 0 ∨ nh = 0 then none
          else
            let product := refineImgAlpha (resize env p0 nw nh)
            let x := (1000 - nw) / 2
            let y := (1000 - nh) / 2
            some (.png (convertRGB (pasteMasked bg product x y)))

/-! ## Gradient synthesis and color extraction -/

/-- A vertical 1000x1000 gradient `top → bottom`:
row `y` is `int(top[i] * (1 - t) + bottom[i] * t)` with `t = y / 999`, the
non-negative truncation modelled as exact `Nat` division (the source computes
in binary floating point; the rows the theorems touch, 0 and 999, are
float-exact). -/
def mkGradientImg (top bottom : RGB) : Img :=
  ⟨1000, 1000, fun _ y =>
    ((top.1 * (999 - y) + bottom.1 * y) / 999,
     (top.2.1 * (999 - y) + bottom.2.1 * y) / 999,
     (top.2.2 * (999 - y) + bottom.2.2 * y) / 999,
     255)⟩

/-- The inline gradient fallback of `run_pipeline` (lines 924-935): the fixed
endpoints `(252, 250, 255)` and `(240, 242, 248)`, independent of the concept
and the cutout. -/
def pipelineFallbackBg : Img :=
  mkGradientImg (252, 250, 255) (240, 242, 248)

/-- One hex digit. -/
def hexVal (c : Char) : Option Nat :=
  if '0' ≤ c ∧ c ≤ '9' then some (c.toNat - 48)
  else if 'a' ≤ c ∧ c ≤ 'f' then some (c.toNat - 87)
  else if 'A' ≤ c ∧ c ≤ 'F' then some (c.toNat - 55)
  else none

/-- Embeds `_parse_hex` (`shopping_pipeline.py:717-725`): strip, remove leading `#`,
require exactly six hex digits. -/
def parseHex (s : String) : Option RGB :=
  match (pyTrim s).data.dropWhile (fun c => c = '#') with
  | [a, b, c, d, e, f] =>
    match hexVal a, hexVal b, hexVal c, hexVal d, hexVal e, hexVal f with
    | some va, some vb, some vc, some vd, some ve, some vf =>
      some (va * 16 + vb, vc * 16 + vd, ve * 16 + vf)
    | _, _, _, _, _, _ => none
  | _ => none

/-- Insertion-order-preserving counter update (Python dict semantics). -/
def addCount : List (RGB × Nat) → RGB → List (RGB × Nat)
  | [], k => [(k, 1)]
  | (k0, c) :: t, k =>
    if k0 = k then (k0, c + 1) :: t else (k0, c) :: addCount t k

/-- Stable insertion by descending count (Python `sorted(key=-count)`). -/
def insertByCountDesc (p : RGB × Nat) : List (RGB × Nat) → List (RGB × Nat)
  | [] => [p]
  | q :: t => if q.2 < p.2 then p :: q :: t else q :: insertByCountDesc p t

/-- Embeds `_extract_dominant_colors` (`shopping_pipeline.py:728-746`): decode,
resize to 50x50, bucket each channel to 16-step granularity over pixels whose
channel sum is strictly between 30 and 720 (excluding near-black and
near-white), rank by frequency (stable), take the first `n`. -/
def extractDominantColors (env : ImgEnv) (hasPil : Bool) (b : PBytes) (n : Nat) :
    List RGB :=
  if !hasPil then []
  else
    match decodeImg env b with
    | none => []
    | some img0 =>
      let img := resize env img0 50 50
      let counts := (List.range 50).foldl (fun acc y =>
        (List.range 50).foldl (fun acc x =>
          let p := img.px x y
          let s := p.1 + p.2.1 + p.2.2.1
          if s < 720 ∧ 30 < s then
            addCount acc (p.1 / 16 * 16, p.2.1 / 16 * 16, p.2.2.1 / 16 * 16)
          else acc) acc) []
      let sorted := counts.foldl (fun acc p => insertByCountDesc p acc) []
      (sorted.take n).map Prod.fst

/-- Embeds `_make_gradient_bg` (`shopping_pipeline.py:749-783`): endpoints from the
concept's first hex colors, else from cutout-sampled dominant colors, else a
fixed light-grey default. This function exists in the source but is never
invoked by `run_pipeline`; it is embedded to compare against claim C3. -/
def makeGradientBg (env : ImgEnv) (hasPil : Bool) (colors : Option (List String))
    (productBytes : Option PBytes) : Option Img :=
  if !hasPil then none
  else
    let parsed := ((colors.getD []).take 3).filterMap parseHex
    let tb1 : Option (RGB × RGB) :=
      if colors.getD [] ≠ [] then
        match parsed with
        | p0 :: p1 :: _ => some (p0, p1)
        | [p0] =>
          some ((min 255 (p0.1 + 60), min 255 (p0.2.1 + 55), min 255 (p0.2.2 + 60)),
                (p0.1 - 30, p0.2.1 - 30, p0.2.2 - 20))
        | [] => none
      else none
    let tb2 : Option (RGB × RGB) :=
      match tb1 with
      | some tb => some tb
      | none =>
        match productBytes with
        | none => none
        | some pb =>
          match extractDominantColors env hasPil pb 2 with
          | e0 :: e1 :: _ =>
            some ((min 255 (e0.1 + 80), min 255 (e0.2.1 + 80), min 255 (e0.2.2 + 80)),
                  (e1.1 - 40, e1.2.1 - 40, e1.2.2 - 40))
          | [e0] =>
            some ((min 255 (e0.1 + 80), min 255 (e0.2.1 + 75), min 255 (e0.2.2 + 80)),
                  (e0.1 - 50, e0.2.1 - 50, e0.2.2 - 40))
          | [] => none
    let top := match tb2 with
      | some tb => tb.1
      | none => (255, 253, 255)
    let bottom := match tb2 with
      | some tb => tb.2
      | none => (225, 220, 238)
    some (mkGradientImg top bottom)

/-! ## The pipeline (`run_pipeline`, `shopping_pipeline.py:825-953`)

External stages are oracle fields; the progress callback may raise (the
source calls it unguarded), so the result is `Except` over the returned
pair. A `PTrace` records which internal events occurred; it adds no logic. -/

/-- Oracle boundary of `run_pipeline`: results of the scraper
(`scrape_naver_product`, an outer timeout collapsing to `(none, none)`),
local-file reads, image downloads, the two background-removal services, AI
analysis (`analyze_product_gemini`'s result), AI background generation
(`generate_background_gemini`), and base64 encoding. -/
structure PipeEnv where
  imgEnv : ImgEnv
  hasRembg : Bool
  hasPil : Bool
  scrape : Option String × Option String
  readLocal : String → Option PBytes
  download : String → Option PBytes
  removeLocal : PBytes → Option PBytes × Option String
  removeReplicate : String → Option PBytes × Option String
  analyze : Option Concept
  generate : Concept → Option PBytes
  b64 : PBytes → String

/-- The arguments of `run_pipeline`. The progress callback returns
`Except String Unit`: `.error` models the callback raising. -/
structure PipeArgs where
  url : String
  geminiApiKey : String
  replicateToken : String
  onProgress : Option (String → Nat → Except String Unit)
  naverClientId : Option String
  naverClientSecret : Option String
  imageUrl : Option String

/-- Events recorded while running: whether `scrape_naver_product` was
invoked, the concept handed to the background/composite stages, and the
gradient image substituted when AI background generation returned nothing. -/
structure PTrace where
  scrapeCalled : Bool
  conceptUsed : Option Concept
  fallbackBgUsed : Option Img

/-- The empty trace. -/
def trace0 : PTrace := ⟨false, none, none⟩

/-- Python `if on_progress: on_progress(stage, pct)` — the call is unguarded against
exceptions in the source, so an `.error` propagates to the caller. -/
def progressCall (p : Option (String → Nat → Except String Unit))
    (stage : String) (pct : Nat) : Except String Unit :=
  match p with
  | none => .ok ()
  | some f => f stage pct

/-- The `run_pipeline` local-path error string (line 860). -/
def msgLocalPathError : String :=
  "이미지 URL(https://...) 또는 로컬 파일 경로를 입력해주세요.\n\n예: https://shop-phinf.pstatic.net/... 또는 C:\\Users\\...\\image.jpg"

/-- NotFound message (line 872). -/
def msgNotFound : String :=
  "상품 이미지를 찾을 수 없습니다. 이미지 URL(https://...)을 직접 입력해주세요."

/-- No local rembg and no Replicate token (line 896). -/
def msgNoRembgNoToken : String :=
  "누끼 처리 불가: rembg 설치(pip install rembg) 또는 Replicate 토큰 필요"

/-- Billing hint appended to a 402 error (line 898). -/
def msgBillingSuffix : String :=
  "\n\n💳 Replicate 크레딧 충전: https://replicate.com/account/billing"

/-- Default cutout failure message (line 899). -/
def msgRembgDefault : String := "누끼 처리 실패"

/-- Image download failure (line 886). -/
def msgDownloadFail : String := "이미지 다운로드 실패"

/-- Local-file read failure (line 886). -/
def msgLocalReadFail : String := "로컬 파일 읽기 실패"

/-- Background generation failure (line 937). -/
def msgBgFail : String := "배경 생성 실패"

/-- Composite failure (line 947). -/
def msgCompositeFail : String := "합성 실패"

/-- The default concept substituted when AI analysis yields nothing
(lines 909-914). -/
def defaultConcept : Concept :=
  ⟨"상품", some ["#ffffff"], "미니멀 화이트 배경"⟩

/-- Stages 3-5 of `run_pipeline` (lines 901-953), entered once a cutout
exists: concept analysis with the default substitution, background
generation with the inline fixed-gradient fallback, compositing, and the
data-URL success return. -/
def pipelineAfterCutout (env : PipeEnv) (a : PipeArgs) (productPng : PBytes)
    (sc : Bool) : Except String (Option String × Option String) × PTrace :=
  match progressCall a.onProgress "analyze" 40 with
  | .error e => (.error e, ⟨sc, none, none⟩)
  | .ok _ =>
    let concept :=
      match env.analyze with
      | some c => c
      | none => defaultConcept
    match progressCall a.onProgress "background" 60 with
    | .error e => (.error e, ⟨sc, some concept, none⟩)
    | .ok _ =>
      let bgRes : Option PBytes × Option Img :=
        match env.generate concept with
        | some b => (some b, none)
        | none =>
          if env.hasPil then (some (.png pipelineFallbackBg), some pipelineFallbackBg)
          else (none, none)
      match bgRes with
      | (none, _) => (.ok (none, some msgBgFail), ⟨sc, some concept, none⟩)
      | (some bgPng, fb) =>
        match progressCall a.onProgress "composite" 85 with
        | .error e => (.error e, ⟨sc, some concept, fb⟩)
        | .ok _ =>
          match compositeThumbnail env.imgEnv env.hasPil productPng bgPng concept.coreColors with
          | none => (.ok (none, some msgCompositeFail), ⟨sc, some concept, fb⟩)
          | some final =>
            match progressCall a.onProgress "done" 100 with
            | .error e => (.error e, ⟨sc, some concept, fb⟩)
            | .ok _ =>
              (.ok (some ("data:image/png;base64," ++ env.b64 final), none),
               ⟨sc, some concept, fb⟩)

/-- Stage 2 of `run_pipeline` (lines 874-899): local rembg first (on the
local bytes or the downloaded image), Replicate fallback (needs a token and
an image URL), then the no-cutout error returns. -/
def pipelineCutout (env : PipeEnv) (a : PipeArgs) (imgUrl : Option String)
    (imgBytes : Option PBytes) (sc : Bool) :
    Except String (Option String × Option String) × PTrace :=
  match progressCall a.onProgress "rembg" 20 with
  | .error e => (.error e, ⟨sc, none, none⟩)
  | .ok _ =>
    let local1 : Option PBytes × Option String :=
      if env.hasRembg then
        match
          (match imgBytes with
           | some b => some b
           | none =>
             match imgUrl with
             | some u => env.download u
             | none => none) with
        | some raw => env.removeLocal raw
        | none =>
          (none, some (if imgUrl.isSome then msgDownloadFail else msgLocalReadFail))
      else (none, none)
    let afterRep : Option PBytes × Option String :=
      match local1.1 with
      | some p => (some p, local1.2)
      | none =>
        if a.replicateToken ≠ "" then
          match imgUrl with
          | some u => env.removeReplicate u
          | none => local1
        else local1
    match afterRep.1 with
    | some productPng => pipelineAfterCutout env a productPng sc
    | none =>
      if ¬env.hasRembg ∧ a.replicateToken = "" then
        (.ok (none, some msgNoRembgNoToken), ⟨sc, none, none⟩)
      else
        match afterRep.2 with
        | some err =>
          if hasSub err "402" then
            (.ok (none, some (err ++ msgBillingSuffix)), ⟨sc, none, none⟩)
          else (.ok (none, some (pyOrStr (some err) msgRembgDefault)), ⟨sc, none, none⟩)
        | none => (.ok (none, some msgRembgDefault), ⟨sc, none, none⟩)

/-- Stage 1b of `run_pipeline` (lines 862-872): scrape only when the page URL
is http(s); a missing candidate is the NotFound return. -/
def pipelineScrape (env : PipeEnv) (a : PipeArgs) :
    Except String (Option String × Option String) × PTrace :=
  if a.url ≠ "" ∧ (pyStartsWith a.url "http://" ∨ pyStartsWith a.url "https://") then
    match env.scrape with
    | (some u, _) =>
      if u = "" then (.ok (none, some msgNotFound), ⟨true, none, none⟩)
      else pipelineCutout env a (some u) none true
    | (none, _) => (.ok (none, some msgNotFound), ⟨true, none, none⟩)
  else (.ok (none, some msgNotFound), trace0)

/-- Embeds `run_pipeline` (`shopping_pipeline.py:825-953`): the first progress call,
the `image_url` argument handling (direct URL / local file / error), then the
scraping, cutout, and image stages. Returns the `(result_data_url,
error_message)` pair, or `.error` when the unguarded progress callback
raises; paired with the event trace. -/
def runPipelineT (env : PipeEnv) (a : PipeArgs) :
    Except String (Option String × Option String) × PTrace :=
  match progressCall a.onProgress "scrape" 5 with
  | .error e => (.error e, trace0)
  | .ok _ =>
    match a.imageUrl with
    | some s =>
      if s ≠ "" then
        let raw := String.mk (pyStrip (fun c => c = '\'')
          (pyStrip (fun c => c = '"') (pyStrip pyWs s.data)))
        if pyStartsWith raw "http://" ∨ pyStartsWith raw "https://" then
          pipelineCutout env a (some raw) none false
        else
          match env.readLocal raw with
          | some b => pipelineCutout env a none (some b) false
          | none => (.ok (none, some msgLocalPathError), trace0)
      else pipelineScrape env a
    | none => pipelineScrape env a

/-! ## Concrete inputs used by counterexamples and witnesses -/

/-- A model response whose first balanced-brace object nests two levels deep:
the text is the single JSON-like object `\x7ba:\x7bb:\x7bc:1\x7d\x7d\x7d`. -/
def exJsonStr : String := "\x7ba:\x7bb:\x7bc:1\x7d\x7d\x7d"

/-- The inner object `\x7bb:\x7bc:1\x7d\x7d` that the source's regex
actually selects out of `exJsonStr`. -/
def exJsonInner : String := "\x7bb:\x7bc:1\x7d\x7d"

/-- Analysis environment returning `exJsonStr` as the response text, with a
`json.loads` oracle that records the exact string it was handed. -/
def exAnalyzeEnv : AnalyzeEnv :=
  ⟨some exJsonStr, fun s => some ⟨s, none, ""⟩⟩

/-- Analysis environment with no response and an always-failing parser. -/
def failAnalyzeEnv : AnalyzeEnv := ⟨none, fun _ => none⟩

/-- PIL oracle for witnesses: every external byte blob decodes to an opaque
black 1x1 image; resampled pixel content is arbitrary. -/
def witImgEnv : ImgEnv :=
  ⟨fun _ => some ⟨1, 1, fun _ _ => (0, 0, 0, 255)⟩, fun _ _ _ _ _ => (9, 9, 9, 9)⟩

/-- Pipeline environment in which every external capability is absent. -/
def envMinimal : PipeEnv :=
  { imgEnv := witImgEnv
    hasRembg := false
    hasPil := false
    scrape := (none, none)
    readLocal := fun _ => none
    download := fun _ => none
    removeLocal := fun _ => (none, none)
    removeReplicate := fun _ => (none, none)
    analyze := none
    generate := fun _ => none
    b64 := fun _ => "" }

/-- Arguments whose progress callback raises on its first invocation. -/
def argsRaisingSink : PipeArgs :=
  ⟨"https://example.com/p", "", "", some (fun _ _ => .error "sink boom"), none, none, none⟩

/-- A second raising-callback argument set, with a distinct message. -/
def argsRaisingSink2 : PipeArgs :=
  ⟨"https://example.com/p", "", "", some (fun _ _ => .error "sink fail 2"), none, none, none⟩

/-- Arguments with an empty page URL and no direct image URL. -/
def argsEmpty : PipeArgs := ⟨"", "", "", none, none, none, none⟩

/-- Arguments whose page URL is not an http(s) URL. -/
def argsBadUrl : PipeArgs := ⟨"not-a-url", "", "", none, none, none, none⟩

/-- Pipeline environment driving the run into the gradient fallback: local
cutout succeeds, AI analysis yields a concept whose `core_colors` are pure
black, AI background generation yields nothing, PIL is available. -/
def envGradient : PipeEnv :=
  { imgEnv := witImgEnv
    hasRembg := true
    hasPil := true
    scrape := (none, none)
    readLocal := fun _ => none
    download := fun _ => some (.ext 0)
    removeLocal := fun _ => (some (.ext 0), none)
    removeReplicate := fun _ => (none, none)
    analyze := some ⟨"패션", some ["#000000", "#000000"], "검은 배경"⟩
    generate := fun _ => none
    b64 := fun _ => "AAAA" }

/-- Arguments supplying a direct image URL (scraping skipped). -/
def argsGradient : PipeArgs :=
  ⟨"", "", "", none, none, none, some "https://img.example/p.png"⟩

/-! ## Helper lemmas for the brace matcher -/

/-- The brace-free part returned by `nbSplit` contains no braces. -/
theorem nbSplit_fst_nb : ∀ l : List Char, ∀ c ∈ (nbSplit l).1, ¬(c = '\x7b' ∨ c = '\x7d') := by
  intro l
  induction l with
  | nil => simp [nbSplit]
  | cons a t ih =>
    simp only [nbSplit]
    split
    · simp
    · next h =>
      intro c hc
      simp only [List.mem_cons] at hc
      rcases hc with rfl | hc
      · exact h
      · exact ih c hc

/-- Depth scanning distributes over append. -/
theorem depthScan_append (a b : List Char) (d : Nat) :
    depthScan (a ++ b) d =
      match depthScan a d with
      | some d2 => depthScan b d2
      | none => none := by
  induction a generalizing d with
  | nil => simp [depthScan]
  | cons c t ih =>
    simp only [List.cons_append, depthScan]
    split
    · exact ih _
    · split
      · split
        · rfl
        · exact ih _
      · exact ih _

/-- Depth scanning a brace-free list keeps the depth. -/
theorem depthScan_nb (l : List Char) (h : ∀ c ∈ l, ¬(c = '\x7b' ∨ c = '\x7d'))
    (d : Nat) : depthScan l d = some d := by
  induction l generalizing d with
  | nil => rfl
  | cons c t ih =>
    have hc := h c (by simp)
    simp only [depthScan]
    rw [if_neg (fun h2 => hc (Or.inl h2)), if_neg (fun h2 => hc (Or.inr h2))]
    exact ih (fun x hx => h x (by simp [hx])) d

/-- A successful `matchLoopF` match closes exactly the one open brace. -/
theorem matchLoopF_balanced : ∀ fuel cs m, matchLoopF fuel cs = some m → depthScan m 1 = some 0 := by
  intro fuel
  induction fuel with
  | zero =>
    intro cs m h
    rcases cs with _ | ⟨c, r⟩
    · exact absurd h (by simp [matchLoopF])
    · simp only [matchLoopF] at h
      split at h
      · simp only [Option.some.injEq] at h
        subst h
        decide
      · split at h
        · exact absurd h (by simp)
        · exact absurd h (by simp)
  | succ n ih =>
    intro cs m h
    rcases cs with _ | ⟨c, r⟩
    · exact absurd h (by simp [matchLoopF])
    · simp only [matchLoopF] at h
      split at h
      · simp only [Option.some.injEq] at h
        subst h
        decide
      · split at h
        · split at h
          · exact absurd h (by simp)
          · next c2 r2 heq =>
            split at h
            · split at h
              · next m' hm' =>
                simp only [Option.some.injEq] at h
                subst h
                have h1 := nbSplit_fst_nb r
                have h2 := nbSplit_fst_nb r2
                have e : ('\x7b' :: (nbSplit r).1 ++ '\x7d' :: (nbSplit r2).1 ++ m') =
                      ('\x7b' :: ((nbSplit r).1 ++ ('\x7d' :: ((nbSplit r2).1 ++ m')))) := by simp
                rw [e]
                simp [depthScan, depthScan_append, depthScan_nb _ h1, depthScan_nb _ h2, ih _ _ hm']
              · exact absurd h (by simp)
            · exact absurd h (by simp)
        · exact absurd h (by simp)

/-- An anchored match of the nested pattern is brace-balanced. -/
theorem matchNestedAt_balanced : ∀ cs m, matchNestedAt cs = some m → depthScan m 0 = some 0 := by
  intro cs m h
  rcases cs with _ | ⟨c, r⟩
  · exact absurd h (by simp [matchNestedAt])
  · simp only [matchNestedAt] at h
    split at h
    · next hc =>
      subst hc
      simp only [Option.map_eq_some'] at h
      obtain ⟨m', hm', rfl⟩ := h
      have e : ('\x7b' :: (nbSplit r).1 ++ m') = ('\x7b' :: ((nbSplit r).1 ++ m')) := by simp
      rw [e]
      simp [depthScan, depthScan_append, depthScan_nb _ (nbSplit_fst_nb r),
        matchLoopF_balanced _ _ _ hm']
    · exact absurd h (by simp)

/-- A leftmost match of the nested pattern is brace-balanced. -/
theorem searchNested_balanced : ∀ cs m, searchNested cs = some m → depthScan m 0 = some 0 := by
  intro cs
  induction cs with
  | nil => intro m h; exact absurd h (by simp [searchNested])
  | cons c t ih =>
    intro m h
    simp only [searchNested] at h
    split at h
    · next hm => simp only [Option.some.injEq] at h; subst h; exact matchNestedAt_balanced _ _ hm
    · exact ih _ h

/-- An anchored match of the flat fallback pattern is brace-balanced. -/
theorem matchFlatAt_balanced : ∀ cs m, matchFlatAt cs = some m → depthScan m 0 = some 0 := by
  intro cs m h
  rcases cs with _ | ⟨c, r⟩
  · exact absurd h (by simp [matchFlatAt])
  · simp only [matchFlatAt] at h
    split at h
    · next hc =>
      subst hc
      split at h
      · exact absurd h (by simp)
      · split at h
        · simp only [Option.some.injEq] at h
          subst h
          have e : ('\x7b' :: (nbSplit r).1 ++ ['\x7d']) = ('\x7b' :: ((nbSplit r).1 ++ ['\x7d'])) := by simp
          rw [e]
          simp [depthScan, depthScan_append, depthScan_nb _ (nbSplit_fst_nb r)]
        · exact absurd h (by simp)
    · exact absurd h (by simp)

/-- A leftmost match of the flat fallback pattern is brace-balanced. -/
theorem searchFlat_balanced : ∀ cs m, searchFlat cs = some m → depthScan m 0 = some 0 := by
  intro cs
  induction cs with
  | nil => intro m h; exact absurd h (by simp [searchFlat])
  | cons c t ih =>
    intro m h
    simp only [searchFlat] at h
    split at h
    · next hm => simp only [Option.some.injEq] at h; subst h; exact matchFlatAt_balanced _ _ hm
    · exact ih _ h

/-- Whatever span either regex selects is brace-balanced. -/
theorem selectJsonSpan_balanced : ∀ cs m, selectJsonSpan cs = some m → depthScan m 0 = some 0 := by
  intro cs m h
  simp only [selectJsonSpan] at h
  split at h
  · next hm => simp only [Option.some.injEq] at h; subst h; exact searchNested_balanced _ _ hm
  · exact searchFlat_balanced _ _ h

/-! ## Claim theorems -/

set_option maxRecDepth 10000

/-- C4: `_refine_alpha` is monotonically non-decreasing over the input range
0..255, maps every input below 95 to 0, every input in 250..255 to 255, and
linearly rescales (with truncation) the inputs in between across that span. -/
theorem refine_alpha_spec :
    (∀ b < 256, ∀ a ≤ b, refineAlpha a ≤ refineAlpha b) ∧
    (∀ v < 95, refineAlpha v = 0) ∧
    (∀ v, 250 ≤ v → v ≤ 255 → refineAlpha v = 255) ∧
    (∀ v, 95 ≤ v → v < 250 → refineAlpha v = (v - 95) * 255 / 155) := by
  refine ⟨by decide, by decide, ?_, ?_⟩
  · intro v h1 _
    simp [refineAlpha, h1, Nat.not_lt.mpr (by omega : 95 ≤ v)]
  · intro v h1 h2
    simp [refineAlpha, Nat.not_lt.mpr h1, Nat.not_le.mpr h2]

/-- C4 witness: the theorem instantiated at concrete alpha values. -/
theorem refine_alpha_spec_witness :
    refineAlpha 100 ≤ refineAlpha 200 ∧ refineAlpha 50 = 0 ∧
    refineAlpha 252 = 255 ∧ refineAlpha 150 = (150 - 95) * 255 / 155 :=
  ⟨refine_alpha_spec.1 200 (by decide) 100 (by decide),
   refine_alpha_spec.2.1 50 (by decide),
   refine_alpha_spec.2.2.1 252 (by decide) (by decide),
   refine_alpha_spec.2.2.2 150 (by decide) (by decide)⟩

/-- C6: a candidate URL accepted by either JSON-field extraction loop of
`_extract_image_from_html` never contains the substrings "logo", "icon",
"banner" or "ad", matched case-insensitively, at the point of acceptance. -/
theorem json_rule_exclusion : ∀ v u,
    (acceptJsonNaver v = some u ∨ acceptJsonGeneric v = some u) →
    hasSub (pyLower u) "logo" = false ∧ hasSub (pyLower u) "icon" = false ∧
    hasSub (pyLower u) "banner" = false ∧ hasSub (pyLower u) "ad" = false := by
  intro v u h
  rcases h with h | h <;>
  · simp only [acceptJsonNaver, acceptJsonGeneric] at h
    split at h
    · next hc =>
      simp only [Option.some.injEq] at h
      subst h
      simp only [Bool.and_eq_true, Bool.not_eq_true'] at hc
      have hx := hc.2
      simp only [excludedFull, Bool.or_eq_false_iff] at hx
      tauto
    · exact absurd h (by simp)

/-- C6 witness: the theorem instantiated at an accepted concrete URL. -/
theorem json_rule_exclusion_witness :
    hasSub (pyLower "https://shop-phinf.pstatic.net/a.jpg") "logo" = false ∧
    hasSub (pyLower "https://shop-phinf.pstatic.net/a.jpg") "icon" = false ∧
    hasSub (pyLower "https://shop-phinf.pstatic.net/a.jpg") "banner" = false ∧
    hasSub (pyLower "https://shop-phinf.pstatic.net/a.jpg") "ad" = false :=
  json_rule_exclusion "https://shop-phinf.pstatic.net/a.jpg"
    "https://shop-phinf.pstatic.net/a.jpg" (Or.inl (by decide))

/-- C10: for non-blocked HTML the Extractor returns the stripped open-graph
title on every path, including when no image rule matches; for blocked pages
(in particular anything shorter than 500 characters) it returns
`(none, none)`, dropping the title. -/
theorem extract_title_policy : ∀ (html : String) (o : HtmlOracle),
    (isNaverErrorPage html = false →
      (extractImageFromHtml html o).2 = o.ogTitle.map pyTrim) ∧
    (html.length < 500 → extractImageFromHtml html o = (none, none)) ∧
    (isNaverErrorPage html = true → extractImageFromHtml html o = (none, none)) := by
  intro html o
  refine ⟨?_, ?_, ?_⟩
  · intro h
    simp only [extractImageFromHtml, h, Bool.false_eq_true, if_false]
    repeat' split <;> try rfl
  · intro h
    have he : isNaverErrorPage html = true := by
      simp [isNaverErrorPage, h]
    simp [extractImageFromHtml, he]
  · intro h
    simp [extractImageFromHtml, h]

/-- C10 witness: the theorem instantiated at a 500-character non-blocked
page carrying only a title, and at a short page. -/
theorem extract_title_policy_witness :
    (extractImageFromHtml (String.mk (List.replicate 500 'x'))
      ⟨none, some " T ", none, none, [], none, []⟩).2 = some (pyTrim " T ") ∧
    extractImageFromHtml "hi" ⟨none, some " T ", none, none, [], none, []⟩ =
      (none, none) := by
  constructor
  · exact ((extract_title_policy (String.mk (List.replicate 500 'x'))
      ⟨none, some " T ", none, none, [], none, []⟩).1 (by decide)).trans rfl
  · exact (extract_title_policy "hi"
      ⟨none, some " T ", none, none, [], none, []⟩).2.1 (by decide)

/-- C7 counterexample: on the response text `exJsonStr`, whose first
balanced-brace JSON object is the whole text (nesting depth three), the
source's regex selects and parses the inner object `exJsonInner` instead —
the function does not select the first balanced-brace object in general. -/
theorem json_span_counterexample :
    selectJsonSpan exJsonStr.data = some exJsonInner.data ∧
    specFirstBalancedBrace exJsonStr.data = some exJsonStr.data ∧
    exJsonInner ≠ exJsonStr ∧
    analyzeProductGemini exAnalyzeEnv = some ⟨exJsonInner, none, ""⟩ :=
  ⟨by decide, by decide, by decide, by decide⟩

/-- C7 (amended): the selection handles one level of nested braces — any
selected span is brace-balanced (but for deeper nesting it may be an inner
object rather than the first balanced one, see the counterexample) — and any
failure (missing response text, or `json.loads` raising on every candidate)
yields `none` rather than an exception. -/
theorem json_span_amended : ∀ (env : AnalyzeEnv) (cs m : List Char),
    (selectJsonSpan cs = some m → depthScan m 0 = some 0) ∧
    (env.geminiText = none → analyzeProductGemini env = none) ∧
    ((∀ s, env.jsonLoads s = none) → analyzeProductGemini env = none) := by
  intro env cs m
  refine ⟨selectJsonSpan_balanced cs m, ?_, ?_⟩
  · intro h
    simp [analyzeProductGemini, h]
  · intro h
    simp only [analyzeProductGemini]
    cases hg : env.geminiText with
    | none => rfl
    | some t =>
      cases hs : selectJsonSpan (pyTrim t).data with
      | none => simp [hs]
      | some m2 => simp [hs, h]

/-- C7 witness: the amended theorem instantiated at the concrete selected
span and at the failing environment. -/
theorem json_span_amended_witness :
    depthScan exJsonInner.data 0 = some 0 ∧
    analyzeProductGemini failAnalyzeEnv = none := by
  constructor
  · exact (json_span_amended failAnalyzeEnv exJsonStr.data exJsonInner.data).1 (by decide)
  · exact (json_span_amended failAnalyzeEnv [] []).2.1 rfl

/-! ## Helper lemmas for the pipeline stages -/

/-- Every plain return of the post-cutout stages carries exactly one of the
pair. -/
theorem pipelineAfterCutout_exclusive : ∀ env a p sc r,
    (pipelineAfterCutout env a p sc).1 = .ok r → r.2.isSome = !r.1.isSome := by
  intro env a p sc r h
  simp only [pipelineAfterCutout] at h
  repeat' split at h
  all_goals try cases h
  all_goals simp_all

/-- Every plain return of the cutout stage carries exactly one of the pair. -/
theorem pipelineCutout_exclusive : ∀ env a iu ib sc r,
    (pipelineCutout env a iu ib sc).1 = .ok r → r.2.isSome = !r.1.isSome := by
  intro env a iu ib sc r h
  simp only [pipelineCutout] at h
  repeat' split at h
  all_goals try exact pipelineAfterCutout_exclusive _ _ _ _ _ h
  all_goals try cases h
  all_goals simp_all

/-- Every plain return of the scrape stage carries exactly one of the pair. -/
theorem pipelineScrape_exclusive : ∀ env a r,
    (pipelineScrape env a).1 = .ok r → r.2.isSome = !r.1.isSome := by
  intro env a r h
  simp only [pipelineScrape] at h
  repeat' split at h
  all_goals try exact pipelineCutout_exclusive _ _ _ _ _ _ h
  all_goals try cases h
  all_goals simp_all

/-- The post-cutout stages do not read `analyze` once it is substituted. -/
theorem pipelineAfterCutout_analyze (env : PipeEnv) (a : PipeArgs)
    (h : env.analyze = none) : ∀ p sc,
    pipelineAfterCutout { env with analyze := some defaultConcept } a p sc =
      pipelineAfterCutout env a p sc := by
  intro p sc
  simp [pipelineAfterCutout, h]

/-- Substituting the default concept is invisible to the cutout stage. -/
theorem pipelineCutout_analyze (env : PipeEnv) (a : PipeArgs)
    (h : env.analyze = none) : ∀ iu ib sc,
    pipelineCutout { env with analyze := some defaultConcept } a iu ib sc =
      pipelineCutout env a iu ib sc := by
  intro iu ib sc
  simp only [pipelineCutout, pipelineAfterCutout_analyze env a h]

/-- Substituting the default concept is invisible to the scrape stage. -/
theorem pipelineScrape_analyze (env : PipeEnv) (a : PipeArgs)
    (h : env.analyze = none) :
    pipelineScrape { env with analyze := some defaultConcept } a =
      pipelineScrape env a := by
  simp only [pipelineScrape, pipelineCutout_analyze env a h]

/-- The only gradient ever recorded by the post-cutout stages is the fixed
fallback gradient. -/
theorem pipelineAfterCutout_fallback : ∀ env a p sc i,
    (pipelineAfterCutout env a p sc).2.fallbackBgUsed = some i →
    i = pipelineFallbackBg := by
  intro env a p sc i h
  simp only [pipelineAfterCutout] at h
  repeat' split at h
  all_goals try cases h
  all_goals try (rename_i heq2; repeat' split at heq2)
  all_goals simp_all

/-- The only gradient ever recorded by the cutout stage is the fixed
fallback gradient. -/
theorem pipelineCutout_fallback : ∀ env a iu ib sc i,
    (pipelineCutout env a iu ib sc).2.fallbackBgUsed = some i →
    i = pipelineFallbackBg := by
  intro env a iu ib sc i h
  simp only [pipelineCutout] at h
  repeat' split at h
  all_goals try exact pipelineAfterCutout_fallback _ _ _ _ _ h
  all_goals cases h

/-- The only gradient ever recorded by the scrape stage is the fixed
fallback gradient. -/
theorem pipelineScrape_fallback : ∀ env a i,
    (pipelineScrape env a).2.fallbackBgUsed = some i →
    i = pipelineFallbackBg := by
  intro env a i h
  simp only [pipelineScrape] at h
  repeat' split at h
  all_goals try exact pipelineCutout_fallback _ _ _ _ _ _ h
  all_goals cases h

/-! ## Pipeline claim theorems -/

/-- C1: on every plain return path of `run_pipeline` — success and every
stage-failure path — exactly one of the returned pair
`(result_data_url, error_message)` is non-null. -/
theorem run_pipeline_result_exclusive : ∀ env a r,
    (runPipelineT env a).1 = .ok r → r.2.isSome = !r.1.isSome := by
  intro env a r h
  simp only [runPipelineT] at h
  repeat' split at h
  all_goals try exact pipelineCutout_exclusive _ _ _ _ _ _ h
  all_goals try exact pipelineScrape_exclusive _ _ _ h
  all_goals try cases h
  all_goals simp_all

/-- C1 witness: the theorem instantiated at a concrete failing run. -/
theorem run_pipeline_result_exclusive_witness :
    ((none : Option String), some msgNotFound).2.isSome =
      !((none : Option String), some msgNotFound).1.isSome :=
  run_pipeline_result_exclusive envMinimal argsEmpty (none, some msgNotFound) rfl

/-- C2: whenever `composite_thumbnail` succeeds it returns a PNG-encoded
image that is exactly 1000x1000 and fully opaque, regardless of the input
image sizes. -/
theorem composite_thumbnail_output_spec :
    ∀ (env : ImgEnv) (hp : Bool) (p b : PBytes) (cc : Option (List String))
      (out : PBytes),
      compositeThumbnail env hp p b cc = some out →
      ∃ i, out = PBytes.png i ∧ i.width = 1000 ∧ i.height = 1000 ∧
        ∀ x y, (i.px x y).2.2.2 = 255 := by
  intro env hp p b cc out h
  simp only [compositeThumbnail] at h
  repeat' split at h
  all_goals simp at h
  all_goals subst h
  all_goals exact ⟨_, rfl, rfl, rfl, fun x y => rfl⟩

/-- C2 witness: the theorem instantiated at concrete decodable inputs. -/
theorem composite_thumbnail_output_spec_witness :
    ((compositeThumbnail witImgEnv true (PBytes.ext 0) (PBytes.ext 1) none).map
      (fun out =>
        match out with
        | .png i => (i.width, i.height, (i.px 5 7).2.2.2)
        | .ext _ => (0, 0, 0))) = some (1000, 1000, 255) := by
  have hs : (compositeThumbnail witImgEnv true (PBytes.ext 0) (PBytes.ext 1)
      none).isSome = true := by decide
  obtain ⟨out, hout⟩ := Option.isSome_iff_exists.mp hs
  obtain ⟨i, rfl, hw, hh, ha⟩ :=
    composite_thumbnail_output_spec _ _ _ _ _ _ hout
  rw [hout]
  simp [hw, hh, ha 5 7]

/-- C3 counterexample: with the concept's `core_colors` pure black
(`#000000` parses to `(0,0,0)`) and AI background generation unavailable,
the gradient the pipeline actually substitutes has top endpoint
`(252,250,255)`, not the claimed `core_colors`-derived endpoint; the
embedded `_make_gradient_bg` (which the claim describes, and which
`run_pipeline` never calls) would have produced the black endpoint. -/
theorem pipeline_gradient_counterexample :
    ((runPipelineT envGradient argsGradient).2.fallbackBgUsed.map
      (fun i => i.px 0 0)) = some (252, 250, 255, 255) ∧
    parseHex "#000000" = some (0, 0, 0) ∧
    ((makeGradientBg witImgEnv true (some ["#000000", "#000000"]) none).map
      (fun i => i.px 0 0)) = some (0, 0, 0, 255) ∧
    ((252, 250, 255, 255) : RGBA) ≠ ((0 : Nat), 0, 0, 255) :=
  ⟨by decide, by decide, by decide, by decide⟩

/-- C3 (amended): whenever the pipeline substitutes a gradient for a missing
AI background, it is the fixed vertical gradient from `(252,250,255)` at the
top row to `(240,242,248)` at the bottom row of the 1000x1000 canvas,
independent of the concept's colors and of the cutout. -/
theorem pipeline_gradient_amended : ∀ env a i,
    (runPipelineT env a).2.fallbackBgUsed = some i →
    i = pipelineFallbackBg ∧
    (∀ x, i.px x 0 = (252, 250, 255, 255)) ∧
    (∀ x, i.px x 999 = (240, 242, 248, 255)) := by
  intro env a i h
  have hi : i = pipelineFallbackBg := by
    simp only [runPipelineT] at h
    repeat' split at h
    all_goals try exact pipelineCutout_fallback _ _ _ _ _ _ h
    all_goals try exact pipelineScrape_fallback _ _ _ h
    all_goals cases h
  subst hi
  refine ⟨rfl, ?_, ?_⟩
  · intro x
    rfl
  · intro x
    rfl

/-- C3 witness: the amended theorem instantiated at the concrete fallback
run. -/
theorem pipeline_gradient_amended_witness :
    pipelineFallbackBg.px 3 0 = (252, 250, 255, 255) ∧
    pipelineFallbackBg.px 3 999 = (240, 242, 248, 255) := by
  have hs : ((runPipelineT envGradient argsGradient).2.fallbackBgUsed).isSome = true := by
    decide
  obtain ⟨i, hi⟩ := Option.isSome_iff_exists.mp hs
  obtain ⟨he, h0, h999⟩ := pipeline_gradient_amended envGradient argsGradient i hi
  subst he
  exact ⟨h0 3, h999 3⟩

/-- C5 counterexample: a progress callback that raises aborts the whole
pipeline — the callback invocation is not wrapped, contradicting the claim
that sink errors are swallowed. -/
theorem progress_sink_counterexample :
    (runPipelineT envMinimal argsRaisingSink).1 = Except.error "sink boom" := rfl

/-- C5 (amended): callback invocations are guarded only by a presence check;
an exception raised by the first progress call propagates out of
`run_pipeline` unchanged, aborting the run. -/
theorem progress_sink_amended : ∀ env a f e,
    a.onProgress = some f → f "scrape" 5 = .error e →
    (runPipelineT env a).1 = .error e := by
  intro env a f e h1 h2
  simp [runPipelineT, progressCall, h1, h2]

/-- C5 witness: the amended theorem instantiated at a concrete raising
callback. -/
theorem progress_sink_amended_witness :
    (runPipelineT envMinimal argsRaisingSink2).1 = Except.error "sink fail 2" :=
  progress_sink_amended envMinimal argsRaisingSink2
    (fun _ _ => .error "sink fail 2") "sink fail 2" rfl rfl

/-- C8: when AI analysis yields nothing the pipeline behaves exactly as if
analysis had returned the fixed default concept
(`category="상품"`, `core_colors=["#ffffff"]`, minimal background) — it
continues to the background and compositing stages instead of failing. -/
theorem concept_default_spec : ∀ env a,
    env.analyze = none →
    runPipelineT env a =
      runPipelineT { env with analyze := some defaultConcept } a ∧
    defaultConcept.category = "상품" ∧
    defaultConcept.coreColors = some ["#ffffff"] := by
  intro env a h
  refine ⟨?_, rfl, rfl⟩
  simp only [runPipelineT, pipelineScrape_analyze env a h,
    pipelineCutout_analyze env a h]

/-- C8 witness: the theorem instantiated at a concrete environment with no
analysis result. -/
theorem concept_default_spec_witness :
    runPipelineT envMinimal argsEmpty =
      runPipelineT { envMinimal with analyze := some defaultConcept } argsEmpty ∧
    defaultConcept.category = "상품" :=
  ⟨(concept_default_spec envMinimal argsEmpty rfl).1,
   (concept_default_spec envMinimal argsEmpty rfl).2.1⟩

/-- C9: with no direct image URL and a page URL that does not start with
`http://` or `https://` (the empty string included), `run_pipeline` returns
the NotFound error immediately and `scrape_naver_product` is never consulted
(the trace records no scrape call). -/
theorem invalid_url_shortcircuit : ∀ env a,
    a.imageUrl = none →
    pyStartsWith a.url "http://" = false →
    pyStartsWith a.url "https://" = false →
    progressCall a.onProgress "scrape" 5 = .ok () →
    runPipelineT env a = (.ok (none, some msgNotFound), trace0) := by
  intro env a h1 h2 h3 h4
  simp [runPipelineT, h4, h1, pipelineScrape, h2, h3]

/-- C9 witness: the theorem instantiated at a concrete non-URL input. -/
theorem invalid_url_shortcircuit_witness :
    runPipelineT envMinimal argsBadUrl = (.ok (none, some msgNotFound), trace0) :=
  invalid_url_shortcircuit envMinimal argsBadUrl rfl (by decide) (by decide) rfl

end ShoppingPipeline
